import Mathlib

/-!
Shallow embedding of the COVID-19 dashboard (src/app.py).

The dashboard loads a pandas DataFrame with one row per (location, date)
pair; numeric metric columns hold IEEE floats where missing data is NaN.
We embed:
  - a DataFrame as a `List Record`;
  - pandas Timestamps as `Date` (year/month/day, compared chronologically);
  - numpy float64 metric values as `PyFloat` (an exact rational, NaN,
    or a signed infinity), with numpy division/multiplication semantics
    (division by zero yields an infinity or NaN, never an exception);
  - the boolean-mask filter of app.py lines 117-121 (`mask`, `filtered_df`);
  - the snapshot lookup of line 125 (`global_data`), whose `.iloc[-1]` on an
    empty frame raises a pandas IndexError;
  - the number formatter `format_num` of lines 135-138, including Python
    `.2f` fixed-point and `,.0f` grouped integer rendering (round half to
    even, `nan`/`inf` rendered as their literal strings);
  - the mortality metric of line 168 and its `.2f`-rendered card;
  - the scatter-chart input of line 241, `filtered_df.dropna` on the two
    testing columns (`fig_test_data`).
-/

namespace CovidApp

/-- Calendar date, embedding a pandas Timestamp. Comparison is
chronological, via the value `year*10000 + month*100 + day`. -/
structure Date where
  year : Nat
  month : Nat
  day : Nat
deriving DecidableEq

/-- Numeric key giving the chronological order of well-formed dates. -/
def Date.val (d : Date) : Nat := d.year * 10000 + d.month * 100 + d.day

/-- Order on dates, embedding pandas Timestamp comparison. -/
def Date.le (a b : Date) : Prop := a.val ≤ b.val

/-- Strict order on dates. -/
def Date.lt (a b : Date) : Prop := a.val < b.val

instance (a b : Date) : Decidable (Date.le a b) :=
  inferInstanceAs (Decidable (a.val ≤ b.val))

instance (a b : Date) : Decidable (Date.lt a b) :=
  inferInstanceAs (Decidable (a.val < b.val))

/-- A numpy float64 value: an exact rational, NaN (also pandas missing
data), or a signed infinity. -/
inductive PyFloat where
  | num (q : ℚ)
  | nan
  | inf
  | ninf
deriving DecidableEq

/-- Python `>=` on floats: every comparison with NaN is false. -/
def PyFloat.ge : PyFloat → PyFloat → Bool
  | .nan, _ => false
  | _, .nan => false
  | .inf, _ => true
  | .ninf, .ninf => true
  | .ninf, _ => false
  | .num _, .inf => false
  | .num _, .ninf => true
  | .num a, .num b => decide (b ≤ a)

/-- Rational division written through `Rat.divInt` on components, so the
kernel can evaluate it; equal to `a / b` (theorem `ratDiv_eq`). -/
def ratDiv (a b : ℚ) : ℚ := Rat.divInt (a.num * b.den) (a.den * b.num)

/-- Rational multiplication written through `Rat.divInt` on components,
so the kernel can evaluate it; equal to `a * b` (theorem `ratMul_eq`). -/
def ratMul (a b : ℚ) : ℚ := Rat.divInt (a.num * b.num) (a.den * b.den)

/-- numpy float64 division: NaN propagates; a finite number divided by
zero gives a signed infinity (or NaN for 0/0), with no exception. -/
def PyFloat.div : PyFloat → PyFloat → PyFloat
  | .nan, _ => .nan
  | _, .nan => .nan
  | .inf, .inf => .nan
  | .inf, .ninf => .nan
  | .ninf, .inf => .nan
  | .ninf, .ninf => .nan
  | .inf, .num b => if b < 0 then .ninf else .inf
  | .ninf, .num b => if b < 0 then .inf else .ninf
  | .num _, .inf => .num 0
  | .num _, .ninf => .num 0
  | .num a, .num b =>
      if b = 0 then (if 0 < a then .inf else if a < 0 then .ninf else .nan)
      else .num (ratDiv a b)

/-- numpy float64 multiplication: NaN propagates; infinity times zero is
NaN. -/
def PyFloat.mul : PyFloat → PyFloat → PyFloat
  | .nan, _ => .nan
  | _, .nan => .nan
  | .inf, .inf => .inf
  | .inf, .ninf => .ninf
  | .ninf, .inf => .ninf
  | .ninf, .ninf => .inf
  | .inf, .num b => if 0 < b then .inf else if b < 0 then .ninf else .nan
  | .ninf, .num b => if 0 < b then .ninf else if b < 0 then .inf else .nan
  | .num a, .inf => if 0 < a then .inf else if a < 0 then .ninf else .nan
  | .num a, .ninf => if 0 < a then .ninf else if a < 0 then .inf else .nan
  | .num a, .num b => .num (ratMul a b)

/-- NaN test, embedding `pandas.isna` on a float64 cell (used by
`DataFrame.dropna`). -/
def PyFloat.isNan : PyFloat → Bool
  | .nan => true
  | _ => false

/-- Whether the value is an ordinary (finite) number. -/
def PyFloat.isFinite : PyFloat → Bool
  | .num _ => true
  | _ => false

/-- One DataFrame row of the OWID dataset, restricted to the columns the
dashboard reads. Metric cells are float64, NaN when missing. -/
structure Record where
  location : String
  date : Date
  total_cases : PyFloat
  new_cases : PyFloat
  total_deaths : PyFloat
  new_deaths : PyFloat
  total_vaccinations : PyFloat
  new_tests_per_thousand : PyFloat
  positive_rate : PyFloat
deriving DecidableEq

/-- The boolean mask of app.py lines 118-120: location membership in the
selected list and the inclusive date-range test, conjoined. -/
def filterMask (selected : List String) (s e : Date) (r : Record) : Bool :=
  decide (r.location ∈ selected) && decide (Date.le s r.date) && decide (Date.le r.date e)

/-- app.py line 121, `filtered_df = df.loc[mask]`: the rows of `df`
satisfying the mask, in order, `df` unchanged. -/
def filtered_df (df : List Record) (selected : List String) (s e : Date) : List Record :=
  df.filter (filterMask selected s e)

/-- Error raised by the snapshot lookup. `indexError` embeds the pandas
IndexError that `.iloc[-1]` raises on an empty frame. `notFoundError` is
modelled from the spec: the NotFoundError named by the specification,
which no code in the repository defines or raises. -/
inductive PandasError where
  | indexError
  | notFoundError
deriving DecidableEq

instance : DecidableEq (Except PandasError Record) := fun a b =>
  match a, b with
  | Except.ok x, Except.ok y =>
      if h : x = y then Decidable.isTrue (congrArg Except.ok h)
      else Decidable.isFalse (fun hc => h (Except.ok.inj hc))
  | Except.error x, Except.error y =>
      if h : x = y then Decidable.isTrue (congrArg Except.error h)
      else Decidable.isFalse (fun hc => h (Except.error.inj hc))
  | Except.ok _, Except.error _ => Decidable.isFalse (fun hc => Except.noConfusion hc)
  | Except.error _, Except.ok _ => Decidable.isFalse (fun hc => Except.noConfusion hc)

/-- app.py line 125, `global_data = df[df['location'] == 'World'].iloc[-1]`:
the positionally last row whose location is "World"; on a frame with no
such row, `.iloc[-1]` raises IndexError. -/
def global_data (df : List Record) : Except PandasError Record :=
  match (df.filter (fun r => r.location == "World")).getLast? with
  | some r => Except.ok r
  | none => Except.error PandasError.indexError

/-- Round `q * k` to the nearest integer, ties to even: the rounding
Python float formatting applies to produce `k = 100` hundredths for
`.2f`, or units for `,.0f`. Writing `q * k = (q.num * k) / q.den`, the
floor is `Int.fdiv`, and the fractional remainder `r / q.den` is
compared with one half by comparing `2 * r` with `q.den`. -/
def roundScaled (k : Nat) (q : ℚ) : ℤ :=
  let n : ℤ := q.num * k
  let d : ℤ := q.den
  let f := Int.fdiv n d
  let r := n - f * d
  if 2 * r < d then f
  else if d < 2 * r then f + 1
  else if f % 2 = 0 then f else f + 1

/-- Left-pad a two-digit fraction with a zero. -/
def pad2 (n : Nat) : String := if n < 10 then "0" ++ toString n else toString n

/-- Left-pad a three-digit group with zeros. -/
def pad3 (n : Nat) : String :=
  if n < 10 then "00" ++ toString n
  else if n < 100 then "0" ++ toString n
  else toString n

/-- Helper for thousands grouping, structurally recursive on fuel. -/
def groupNatAux : Nat → Nat → String
  | 0, n => toString n
  | fuel + 1, n =>
      if n < 1000 then toString n
      else groupNatAux fuel (n / 1000) ++ "," ++ pad3 (n % 1000)

/-- Decimal string of a natural number with thousands separated by
commas, as Python grouped formatting produces. -/
def groupNat (n : Nat) : String := groupNatAux n n

/-- Python `f"{x:.2f}"` on a float64 value: two fixed decimals, round
half to even; NaN and the infinities render as their literal names. -/
def formatFixed2 : PyFloat → String
  | .nan => "nan"
  | .inf => "inf"
  | .ninf => "-inf"
  | .num q =>
      let m := (roundScaled 100 q).natAbs
      (if q.num < 0 then "-" else "") ++ toString (m / 100) ++ "." ++ pad2 (m % 100)

/-- Python `f"{x:,.0f}"` on a float64 value: thousands-grouped integer
rendering, round half to even; NaN and the infinities render as their
literal names. -/
def formatGrouped : PyFloat → String
  | .nan => "nan"
  | .inf => "inf"
  | .ninf => "-inf"
  | .num q =>
      (if q.num < 0 then "-" else "") ++ groupNat (roundScaled 1 q).natAbs

/-- app.py lines 135-138. -/
def format_num (num : PyFloat) : String :=
  if num.ge (.num 1000000000) then formatFixed2 (num.div (.num 1000000000)) ++ "B"
  else if num.ge (.num 1000000) then formatFixed2 (num.div (.num 1000000)) ++ "M"
  else formatGrouped num

/-- app.py line 168: the case-fatality rate computed from the snapshot
row. -/
def mortality (g : Record) : PyFloat :=
  (g.total_deaths.div g.total_cases).mul (.num 100)

/-- app.py line 172: the mortality figure as rendered on the summary
card, `f"{mortality:.2f}%"`. -/
def mortalityCard (g : Record) : String := formatFixed2 (mortality g) ++ "%"

/-- app.py line 241: the data handed to the testing scatter chart,
`filtered_df.dropna(subset=['new_tests_per_thousand', 'positive_rate'])`:
rows where either column is NaN are dropped, nothing else. -/
def fig_test_data (filtered : List Record) : List Record :=
  filtered.filter (fun r => !r.new_tests_per_thousand.isNan && !r.positive_rate.isNan)

/-- Sample "World" row dated 2021-06-01. -/
def rowW0601 : Record :=
  { location := "World", date := ⟨2021, 6, 1⟩, total_cases := PyFloat.num 200
    new_cases := PyFloat.num 2, total_deaths := PyFloat.num 20
    new_deaths := PyFloat.num 2, total_vaccinations := PyFloat.num 9
    new_tests_per_thousand := PyFloat.nan, positive_rate := PyFloat.nan }

/-- Sample "World" row dated 2021-01-01. -/
def rowW0101 : Record :=
  { location := "World", date := ⟨2021, 1, 1⟩, total_cases := PyFloat.num 100
    new_cases := PyFloat.num 1, total_deaths := PyFloat.num 10
    new_deaths := PyFloat.num 1, total_vaccinations := PyFloat.num 4
    new_tests_per_thousand := PyFloat.nan, positive_rate := PyFloat.nan }

/-- Sample non-"World" row. -/
def rowIndia : Record :=
  { location := "India", date := ⟨2021, 3, 15⟩, total_cases := PyFloat.num 50
    new_cases := PyFloat.num 1, total_deaths := PyFloat.num 5
    new_deaths := PyFloat.num 1, total_vaccinations := PyFloat.num 2
    new_tests_per_thousand := PyFloat.num 3, positive_rate := PyFloat.num 1 }

/-- Sample row for the empty-selection and inverted-interval witness. -/
def rowBrazil : Record :=
  { location := "Brazil", date := ⟨2021, 3, 1⟩, total_cases := PyFloat.num 60
    new_cases := PyFloat.num 1, total_deaths := PyFloat.num 6
    new_deaths := PyFloat.num 1, total_vaccinations := PyFloat.num 3
    new_tests_per_thousand := PyFloat.num 2, positive_rate := PyFloat.num 1 }

/-- Sample row for the unknown-location witness. -/
def rowStates : Record :=
  { location := "United States", date := ⟨2021, 4, 1⟩, total_cases := PyFloat.num 70
    new_cases := PyFloat.num 1, total_deaths := PyFloat.num 7
    new_deaths := PyFloat.num 1, total_vaccinations := PyFloat.num 3
    new_tests_per_thousand := PyFloat.num 2, positive_rate := PyFloat.num 1 }

/-- Sample snapshot row with total_deaths 50 and total_cases 1000. -/
def rowMort : Record :=
  { location := "World", date := ⟨2021, 6, 1⟩, total_cases := PyFloat.num 1000
    new_cases := PyFloat.num 7, total_deaths := PyFloat.num 50
    new_deaths := PyFloat.num 3, total_vaccinations := PyFloat.num 90
    new_tests_per_thousand := PyFloat.nan, positive_rate := PyFloat.nan }

/-- Sample snapshot row with total_cases 0. -/
def rowZeroCases : Record :=
  { location := "World", date := ⟨2021, 6, 1⟩, total_cases := PyFloat.num 0
    new_cases := PyFloat.num 0, total_deaths := PyFloat.num 50
    new_deaths := PyFloat.num 0, total_vaccinations := PyFloat.num 0
    new_tests_per_thousand := PyFloat.nan, positive_rate := PyFloat.nan }

/-- The executable component division agrees with rational division. -/
theorem ratDiv_eq (a b : ℚ) : ratDiv a b = a / b := by
  rw [ratDiv, Rat.divInt_eq_div]
  rcases eq_or_ne b 0 with hb | hb
  · subst hb
    simp
  · have hbn : (b.num : ℚ) ≠ 0 := by
      exact_mod_cast Rat.num_ne_zero.mpr hb
    have had : ((a.den : ℤ) : ℚ) ≠ 0 := by
      exact_mod_cast Nat.cast_ne_zero.mpr a.den_nz
    have hbd : ((b.den : ℤ) : ℚ) ≠ 0 := by
      exact_mod_cast Nat.cast_ne_zero.mpr b.den_nz
    conv_rhs => rw [← Rat.num_div_den a, ← Rat.num_div_den b]
    push_cast
    field_simp

/-- The executable component multiplication agrees with rational
multiplication. -/
theorem ratMul_eq (a b : ℚ) : ratMul a b = a * b := by
  rw [ratMul, Rat.divInt_eq_div]
  conv_rhs => rw [← Rat.num_div_den a, ← Rat.num_div_den b]
  rw [div_mul_div_comm]
  push_cast
  rfl

/-- A float cell is not the NaN marker exactly when `isNan` is false. -/
theorem PyFloat.isNan_eq_false (x : PyFloat) : x.isNan = false ↔ x ≠ PyFloat.nan := by
  cases x <;> simp [PyFloat.isNan]

/-- The numerator is negative exactly when the rational is. -/
theorem Rat.num_lt_zero (q : ℚ) : q.num < 0 ↔ q < 0 := by
  rw [← not_le, ← not_le]
  exact not_congr Rat.num_nonneg

/-- The positionally last element of a list sorted by date is a
date-maximum element. -/
theorem getLast_date_max : ∀ (l : List Record) (r : Record),
    l.getLast? = some r →
    l.Pairwise (fun a b => a.date.val ≤ b.date.val) →
    r ∈ l ∧ ∀ a ∈ l, a.date.val ≤ r.date.val
  | [], r, hg, _ => by simp at hg
  | [x], r, hg, _ => by
      simp only [List.getLast?_singleton, Option.some.injEq] at hg
      subst hg
      refine ⟨List.mem_singleton_self x, ?_⟩
      intro a ha
      rw [List.mem_singleton] at ha
      subst ha
      exact le_refl _
  | x :: y :: ys, r, hg, hs => by
      rw [List.getLast?_cons_cons] at hg
      have hx := (List.pairwise_cons.mp hs).1
      have hs2 := (List.pairwise_cons.mp hs).2
      obtain ⟨hrm, hmax⟩ := getLast_date_max (y :: ys) r hg hs2
      refine ⟨List.mem_cons_of_mem _ hrm, ?_⟩
      intro a ha
      rcases List.mem_cons.mp ha with h | h
      · subst h
        exact hx r hrm
      · exact hmax a h

/-- C1: for every Dataset, location set and date interval, the filter of
app.py lines 117-121 is an order-preserving subsequence of the Dataset
(the Dataset itself untouched), and a Record belongs to the result
exactly when its location is selected and its date lies in the closed
interval, inclusive at both endpoints. -/
theorem filtered_df_subseq_mem (df : List Record) (L : List String) (s e : Date) :
    (filtered_df df L s e).Sublist df ∧
    ∀ r : Record, r ∈ filtered_df df L s e ↔
      r ∈ df ∧ r.location ∈ L ∧ Date.le s r.date ∧ Date.le r.date e := by
  refine ⟨List.filter_sublist df, ?_⟩
  intro r
  simp [filtered_df, filterMask, List.mem_filter, and_assoc]

/-- C6: an empty location selection yields the empty view, and an
inverted date interval yields the empty view; neither is an error. -/
theorem filtered_df_empty_inverted (df : List Record) (L : List String) (s e : Date) :
    filtered_df df [] s e = [] ∧ (Date.lt e s → filtered_df df L s e = []) := by
  constructor
  · rw [filtered_df, List.filter_eq_nil_iff]
    intro r _
    simp [filterMask]
  · intro h
    rw [filtered_df, List.filter_eq_nil_iff]
    intro r _
    simp only [filterMask, Bool.and_eq_true, decide_eq_true_eq]
    rintro ⟨⟨_, hs⟩, he⟩
    rw [Date.le] at hs he
    rw [Date.lt] at h
    omega

/-- C6 witness at a concrete Dataset and an inverted interval. -/
theorem filtered_df_empty_inverted_witness :
    Date.lt ⟨2021, 1, 1⟩ ⟨2021, 6, 1⟩ ∧
    filtered_df [rowBrazil] [] ⟨2021, 1, 1⟩ ⟨2021, 6, 1⟩ = [] ∧
    filtered_df [rowBrazil] ["India"] ⟨2021, 6, 1⟩ ⟨2021, 1, 1⟩ = [] :=
  ⟨by decide,
   (filtered_df_empty_inverted [rowBrazil] ["India"] ⟨2021, 1, 1⟩ ⟨2021, 6, 1⟩).1,
   (filtered_df_empty_inverted [rowBrazil] ["India"] ⟨2021, 6, 1⟩ ⟨2021, 1, 1⟩).2 (by decide)⟩

/-- C10: location names absent from the Dataset contribute nothing: the
filter over a selection equals the filter over the selection restricted
to the locations occurring in the Dataset, with no error for unknown
names. -/
theorem filtered_df_unknown_locations (df : List Record) (L : List String) (s e : Date)
    (_hse : Date.le s e) :
    filtered_df df L s e =
      filtered_df df (L.filter (fun x => decide (x ∈ df.map Record.location))) s e := by
  rw [filtered_df, filtered_df]
  apply List.filter_congr
  intro r hr
  have hmem : r.location ∈ df.map Record.location := List.mem_map_of_mem Record.location hr
  have hiff : r.location ∈ L ↔
      r.location ∈ L.filter (fun x => decide (x ∈ df.map Record.location)) := by
    rw [List.mem_filter]
    simp only [decide_eq_true_eq]
    exact (and_iff_left hmem).symm
  rw [filterMask, filterMask, decide_eq_decide.mpr hiff]

/-- C10 witness: a selection containing the unknown name "Atlantis". -/
theorem filtered_df_unknown_locations_witness :
    Date.le ⟨2021, 1, 1⟩ ⟨2021, 6, 1⟩ ∧
    filtered_df [rowBrazil] ["India", "Atlantis"] ⟨2021, 1, 1⟩ ⟨2021, 6, 1⟩ =
      filtered_df [rowBrazil]
        (["India", "Atlantis"].filter
          (fun x => decide (x ∈ [rowBrazil].map Record.location)))
        ⟨2021, 1, 1⟩ ⟨2021, 6, 1⟩ :=
  ⟨by decide,
   filtered_df_unknown_locations [rowBrazil] ["India", "Atlantis"]
     ⟨2021, 1, 1⟩ ⟨2021, 6, 1⟩ (by decide)⟩

/-- C8: the scatter-chart data is exactly the filtered view with the
rows missing either testing metric removed: a subsequence of the view,
and membership holds exactly for rows of the view whose two testing
cells are present. -/
theorem fig_test_data_exact (df : List Record) (L : List String) (s e : Date) :
    (fig_test_data (filtered_df df L s e)).Sublist (filtered_df df L s e) ∧
    ∀ r : Record, r ∈ fig_test_data (filtered_df df L s e) ↔
      r ∈ filtered_df df L s e ∧
        r.new_tests_per_thousand ≠ PyFloat.nan ∧ r.positive_rate ≠ PyFloat.nan := by
  refine ⟨List.filter_sublist _, ?_⟩
  intro r
  simp [fig_test_data, List.mem_filter, Bool.not_eq_true', PyFloat.isNan_eq_false, and_assoc]

/-- C2 counterexample: on a Dataset whose "World" rows are not sorted by
date (the 2021-06-01 row listed before the 2021-01-01 row), global_data
returns the positionally last "World" row, dated 2021-01-01, although a
"World" row with a strictly greater date is present — so it does not
return the maximum-date "World" Record on unsorted data. -/
theorem global_data_unsorted_not_max :
    global_data [rowW0601, rowW0101] = Except.ok rowW0101 ∧
    rowW0601 ∈ [rowW0601, rowW0101] ∧ rowW0601.location = "World" ∧
    rowW0101.location = "World" ∧ Date.lt rowW0101.date rowW0601.date := by
  decide

/-- C2 (amended): global_data returns the positionally last "World" row;
whenever the "World" rows of the Dataset appear in nondecreasing date
order (as in the source data), that row is a "World" row of the Dataset
of maximum date. -/
theorem global_data_last_world_max_of_sorted (df : List Record)
    (hne : df.filter (fun r => r.location == "World") ≠ [])
    (hs : (df.filter (fun r => r.location == "World")).Pairwise
      (fun a b => a.date.val ≤ b.date.val)) :
    ∃ r, global_data df = Except.ok r ∧ r ∈ df ∧ r.location = "World" ∧
      ∀ a ∈ df, a.location = "World" → a.date.val ≤ r.date.val := by
  obtain ⟨r, hg⟩ : ∃ r, (df.filter (fun r => r.location == "World")).getLast? = some r := by
    cases hl : (df.filter (fun r => r.location == "World")).getLast? with
    | none => exact absurd (List.getLast?_eq_none_iff.mp hl) hne
    | some r => exact ⟨r, rfl⟩
  obtain ⟨hrm, hmax⟩ := getLast_date_max _ r hg hs
  have hrw : r ∈ df ∧ r.location = "World" := by
    have := List.mem_filter.mp hrm
    exact ⟨this.1, by simpa using this.2⟩
  refine ⟨r, ?_, hrw.1, hrw.2, ?_⟩
  · rw [global_data, hg]
  · intro a ha hw
    exact hmax a (List.mem_filter.mpr ⟨ha, by simp [hw]⟩)

/-- C2 witness: on the sorted two-row "World" Dataset, global_data
returns a maximum-date "World" row. -/
theorem global_data_last_world_max_witness :
    [rowW0101, rowW0601].filter (fun r => r.location == "World") ≠ [] ∧
    ∃ r, global_data [rowW0101, rowW0601] = Except.ok r ∧
      r ∈ [rowW0101, rowW0601] ∧ r.location = "World" ∧
      ∀ a ∈ [rowW0101, rowW0601], a.location = "World" → a.date.val ≤ r.date.val :=
  ⟨by decide,
   global_data_last_world_max_of_sorted [rowW0101, rowW0601] (by decide) (by decide)⟩

/-- C3 counterexample: on a Dataset with no "World" row, global_data
fails with the IndexError of out-of-bounds positional indexing, not with
the NotFoundError the claim names. -/
theorem global_data_no_world_counterexample :
    global_data [rowIndia] = Except.error PandasError.indexError ∧
    global_data [rowIndia] ≠ Except.error PandasError.notFoundError := by
  decide

/-- C3 (amended): on every Dataset with no "World" Record, global_data
fails — surfaced, not silently defaulted — but with an IndexError, the
generic out-of-bounds error of positional indexing. -/
theorem global_data_no_world_index_error (df : List Record)
    (h : ∀ r ∈ df, r.location ≠ "World") :
    global_data df = Except.error PandasError.indexError := by
  have hnil : df.filter (fun r => r.location == "World") = [] := by
    rw [List.filter_eq_nil_iff]
    intro r hr
    simp [h r hr]
  rw [global_data, hnil]
  rfl

/-- C3 witness: the amended statement at a concrete one-row Dataset. -/
theorem global_data_no_world_witness :
    (∀ r ∈ [rowIndia], r.location ≠ "World") ∧
    global_data [rowIndia] = Except.error PandasError.indexError :=
  ⟨by decide, global_data_no_world_index_error [rowIndia] (by decide)⟩

/-- C4: format_num renders values at least 1e9 as the quotient by 1e9
with two decimals and a "B" suffix, values in [1e6, 1e9) as the quotient
by 1e6 with two decimals and an "M" suffix, and everything else as the
thousands-grouped integer string; in particular 999, 1500000, 2300000000
and 0 render as "999", "1.50M", "2.30B" and "0". -/
theorem format_num_thresholds (q : ℚ) :
    (10 ^ 9 ≤ q → format_num (.num q) = formatFixed2 (.num (q / 10 ^ 9)) ++ "B") ∧
    (10 ^ 6 ≤ q → q < 10 ^ 9 →
      format_num (.num q) = formatFixed2 (.num (q / 10 ^ 6)) ++ "M") ∧
    (q < 10 ^ 6 → format_num (.num q) = formatGrouped (.num q)) ∧
    format_num (.num 999) = "999" ∧ format_num (.num 1500000) = "1.50M" ∧
    format_num (.num 2300000000) = "2.30B" ∧ format_num (.num 0) = "0" := by
  refine ⟨?_, ?_, ?_, by decide, by decide, by decide, by decide⟩
  · intro h
    have h1 : (1000000000 : ℚ) ≤ q := by
      calc (1000000000 : ℚ) = 10 ^ 9 := by norm_num
        _ ≤ q := h
    have hge : PyFloat.ge (.num q) (.num 1000000000) = true := by
      simp [PyFloat.ge, h1]
    rw [format_num, hge]
    simp only [if_true]
    have hdiv : PyFloat.div (.num q) (.num 1000000000) = .num (q / 10 ^ 9) := by
      rw [PyFloat.div]
      rw [if_neg (by norm_num)]
      rw [ratDiv_eq]
      norm_num
    rw [hdiv]
  · intro h6 h9
    have h1 : ¬ (1000000000 : ℚ) ≤ q := by
      rw [not_le]
      calc q < 10 ^ 9 := h9
        _ = (1000000000 : ℚ) := by norm_num
    have hge9 : PyFloat.ge (.num q) (.num 1000000000) = false := by
      simp [PyFloat.ge, h1]
    have h2 : (1000000 : ℚ) ≤ q := by
      calc (1000000 : ℚ) = 10 ^ 6 := by norm_num
        _ ≤ q := h6
    have hge6 : PyFloat.ge (.num q) (.num 1000000) = true := by
      simp [PyFloat.ge, h2]
    rw [format_num, hge9, hge6]
    simp only [Bool.false_eq_true, if_false, if_true]
    have hdiv : PyFloat.div (.num q) (.num 1000000) = .num (q / 10 ^ 6) := by
      rw [PyFloat.div]
      rw [if_neg (by norm_num)]
      rw [ratDiv_eq]
      norm_num
    rw [hdiv]
  · intro h
    have h1 : ¬ (1000000000 : ℚ) ≤ q := by
      rw [not_le]
      calc q < 10 ^ 6 := h
        _ < (1000000000 : ℚ) := by norm_num
    have h2 : ¬ (1000000 : ℚ) ≤ q := by
      rw [not_le]
      calc q < 10 ^ 6 := h
        _ = (1000000 : ℚ) := by norm_num
    have hge9 : PyFloat.ge (.num q) (.num 1000000000) = false := by
      simp [PyFloat.ge, h1]
    have hge6 : PyFloat.ge (.num q) (.num 1000000) = false := by
      simp [PyFloat.ge, h2]
    rw [format_num, hge9, hge6]
    simp

/-- C4 witness: the billions branch taken at 2300000000. -/
theorem format_num_thresholds_witness :
    (10 : ℚ) ^ 9 ≤ 2300000000 ∧
    format_num (.num 2300000000) = formatFixed2 (.num ((2300000000 : ℚ) / 10 ^ 9)) ++ "B" :=
  ⟨by norm_num, (format_num_thresholds 2300000000).1 (by norm_num)⟩

/-- C5: format_num is total on NaN and on negative numbers: NaN renders
as the fixed placeholder "nan" and every negative number renders through
the grouped-integer branch as a defined, sign-prefixed string; no input
raises. -/
theorem format_num_nan_negative :
    format_num PyFloat.nan = "nan" ∧
    ∀ q : ℚ, q < 0 →
      format_num (.num q) = formatGrouped (.num q) ∧
      ∃ s : String, formatGrouped (.num q) = "-" ++ s := by
  refine ⟨by decide, ?_⟩
  intro q hq
  have h1 : ¬ (1000000000 : ℚ) ≤ q := by
    rw [not_le]
    calc q < 0 := hq
      _ < (1000000000 : ℚ) := by norm_num
  have h2 : ¬ (1000000 : ℚ) ≤ q := by
    rw [not_le]
    calc q < 0 := hq
      _ < (1000000 : ℚ) := by norm_num
  have hge9 : PyFloat.ge (.num q) (.num 1000000000) = false := by
    simp [PyFloat.ge, h1]
  have hge6 : PyFloat.ge (.num q) (.num 1000000) = false := by
    simp [PyFloat.ge, h2]
  have hnum : q.num < 0 := (Rat.num_lt_zero q).mpr hq
  constructor
  · rw [format_num, hge9, hge6]
    simp
  · refine ⟨groupNat (roundScaled 1 q).natAbs, ?_⟩
    rw [formatGrouped]
    rw [if_pos hnum]

/-- C5 witness at the negative input -5. -/
theorem format_num_nan_negative_witness :
    ((-5 : ℚ) < 0 ∧ format_num (.num (-5)) = formatGrouped (.num (-5))) ∧
    ∃ s : String, formatGrouped (.num (-5)) = "-" ++ s :=
  ⟨⟨by norm_num, (format_num_nan_negative.2 (-5) (by norm_num)).1⟩,
   (format_num_nan_negative.2 (-5) (by norm_num)).2⟩

/-- C7: the mortality metric is total_deaths divided by total_cases
times 100, and the card renders it with two decimals and a percent sign:
for deaths 50 and cases 1000 the value is 5 and the card shows "5.00%". -/
theorem mortality_formula (g : Record) (hd : g.total_deaths = PyFloat.num 50)
    (hc : g.total_cases = PyFloat.num 1000) :
    mortality g = PyFloat.num 5 ∧ mortalityCard g = "5.00%" := by
  have h1 : mortality g = PyFloat.num 5 := by
    rw [mortality, hd, hc]
    decide
  refine ⟨h1, ?_⟩
  rw [mortalityCard, h1]
  decide

/-- C7 witness at a concrete snapshot row. -/
theorem mortality_formula_witness :
    rowMort.total_deaths = PyFloat.num 50 ∧ rowMort.total_cases = PyFloat.num 1000 ∧
    (mortality rowMort = PyFloat.num 5 ∧ mortalityCard rowMort = "5.00%") :=
  ⟨rfl, rfl, mortality_formula rowMort rfl rfl⟩

/-- C9: the mortality division has no guard: when total_cases is zero or
missing, the computation still goes through, produces a non-finite value
(an infinity or NaN), and the card renders that value followed by the
percent sign rather than an error or placeholder. -/
theorem mortality_unguarded (g : Record)
    (h : g.total_cases = PyFloat.num 0 ∨ g.total_cases = PyFloat.nan) :
    (mortality g).isFinite = false ∧
    mortalityCard g ∈ (["inf%", "-inf%", "nan%"] : List String) := by
  rcases h with h | h
  · rw [mortality, mortalityCard, mortality, h]
    cases hd : g.total_deaths with
    | num a =>
      rcases lt_trichotomy a 0 with ha | ha | ha
      · rw [PyFloat.div]
        rw [if_pos rfl, if_neg (by exact not_lt.mpr ha.le), if_pos ha]
        simp [PyFloat.mul, PyFloat.isFinite, formatFixed2]
      · subst ha
        rw [PyFloat.div]
        rw [if_pos rfl, if_neg (by norm_num), if_neg (by norm_num)]
        simp [PyFloat.mul, PyFloat.isFinite, formatFixed2]
      · rw [PyFloat.div]
        rw [if_pos rfl, if_pos ha]
        simp [PyFloat.mul, PyFloat.isFinite, formatFixed2]
    | nan => simp [PyFloat.div, PyFloat.mul, PyFloat.isFinite, formatFixed2]
    | inf =>
      rw [PyFloat.div]
      rw [if_neg (by norm_num)]
      simp [PyFloat.mul, PyFloat.isFinite, formatFixed2]
    | ninf =>
      rw [PyFloat.div]
      rw [if_neg (by norm_num)]
      simp [PyFloat.mul, PyFloat.isFinite, formatFixed2]
  · rw [mortality, mortalityCard, mortality, h]
    cases hd : g.total_deaths with
    | num a => simp [PyFloat.div, PyFloat.mul, PyFloat.isFinite, formatFixed2]
    | nan => simp [PyFloat.div, PyFloat.mul, PyFloat.isFinite, formatFixed2]
    | inf => simp [PyFloat.div, PyFloat.mul, PyFloat.isFinite, formatFixed2]
    | ninf => simp [PyFloat.div, PyFloat.mul, PyFloat.isFinite, formatFixed2]

/-- C9 witness: a snapshot row with total_cases 0 and total_deaths 50. -/
theorem mortality_unguarded_witness :
    (rowZeroCases.total_cases = PyFloat.num 0 ∨ rowZeroCases.total_cases = PyFloat.nan) ∧
    ((mortality rowZeroCases).isFinite = false ∧
      mortalityCard rowZeroCases ∈ (["inf%", "-inf%", "nan%"] : List String)) :=
  ⟨Or.inl rfl, mortality_unguarded rowZeroCases (Or.inl rfl)⟩

end CovidApp
